import Mathlib

/-!
Shallow embedding of femtovg's font-face and glyph-caching subsystem
(`src/text/font.rs`), with `f32` values embedded as exact rationals,
`u16`/`u8` as `Nat`, `i16` as `Int`, and the interior-mutable glyph cache
(`RefCell<FnvHashMap<u16, Glyph>>`) as an explicitly threaded association
list.  The two mutually exclusive backends (`textlayout` via `ttf_parser`,
and `swash`) are both embedded; the external parser crates themselves are
not part of the repository, so their observable outputs are modelled as
record-of-accessors inputs (`TtfFace`, `SwashFace`).
-/

set_option autoImplicit false

namespace Femtovg

/-- Modelled from the spec: femtovg's `Path` type (`src/path.rs` is not part
of the provided sources); per the spec a glyph outline is "a vector outline
(a path in font-design units)", built through the verb-appending operations
`move_to`/`line_to`/`quad_to`/`bezier_to`/`close` that `Font::glyph` (swash
branch) invokes. A path is embedded as the list of appended verbs. -/
inductive PathVerb where
  | moveTo (x y : ℚ)
  | lineTo (x y : ℚ)
  | quadTo (cx cy x y : ℚ)
  | bezierTo (c1x c1y c2x c2y x y : ℚ)
  | close
deriving DecidableEq, Repr

abbrev Path := List PathVerb

def Path.new : Path := []

def Path.move_to (p : Path) (x y : ℚ) : Path := p ++ [PathVerb.moveTo x y]

def Path.line_to (p : Path) (x y : ℚ) : Path := p ++ [PathVerb.lineTo x y]

def Path.quad_to (p : Path) (cx cy x y : ℚ) : Path := p ++ [PathVerb.quadTo cx cy x y]

def Path.bezier_to (p : Path) (c1x c1y c2x c2y x y : ℚ) : Path := p ++ [PathVerb.bezierTo c1x c1y c2x c2y x y]

def Path.closePath (p : Path) : Path := p ++ [PathVerb.close]

/-- Embeds `GlyphMetrics` (font.rs lines 21-27): four `f32` fields. -/
structure GlyphMetrics where
  width : ℚ
  height : ℚ
  bearing_x : ℚ
  bearing_y : ℚ
deriving DecidableEq, Repr

/-- Embeds `Glyph` (font.rs lines 29-33): `path == none` means render as image. -/
structure Glyph where
  path : Option Path
  metrics : GlyphMetrics
deriving DecidableEq, Repr

/-- Embeds `FontFlags` (font.rs lines 41-42): a `u8` bit set. -/
structure FontFlags where
  bits : Nat
deriving DecidableEq, Repr

/-- Embeds `FontFlags::new` (font.rs lines 46-64). -/
def FontFlags.new (regular italic bold oblique variab : Bool) : FontFlags :=
  let flags : Nat := 0
  let flags := if regular then flags ||| 0x1 else flags
  let flags := if italic then flags ||| 0x2 else flags
  let flags := if bold then flags ||| 0x4 else flags
  let flags := if oblique then flags ||| 0x8 else flags
  let flags := if variab then flags ||| 0x10 else flags
  ⟨flags⟩

/-- Embeds `FontMetrics` (font.rs lines 93-101); `weight`/`width` are `u16`. -/
structure FontMetrics where
  ascender : ℚ
  descender : ℚ
  height : ℚ
  flags : FontFlags
  weight : Nat
  width : Nat
deriving DecidableEq, Repr

/-- Embeds `FontMetrics::scale` (font.rs lines 104-108), with the in-place
mutation turned into a returned copy. -/
def FontMetrics.scale (m : FontMetrics) (scale : ℚ) : FontMetrics :=
  { m with
    ascender := m.ascender * scale
    descender := m.descender * scale
    height := m.height * scale }

/-- Embeds Rust's `f32::round`: round to the nearest integer, ties away from
zero. -/
def roundTiesAway (q : ℚ) : ℤ :=
  if 0 ≤ q then ⌊q + 1 / 2⌋ else ⌈q - 1 / 2⌉

/-- Embeds the getter `FontMetrics::height()` (font.rs lines 121-123), which
returns `self.height.round()`. -/
def FontMetrics.heightRounded (m : FontMetrics) : ℚ :=
  (roundTiesAway m.height : ℚ)

/-- Models `ttf_parser::RasterImageFormat` (external crate): the glyph branch
only distinguishes `PNG` from everything else. -/
inductive RasterImageFormat where
  | PNG
  | BitmapMono
  | BitmapMonoPacked
  | BitmapGray2
  | BitmapGray2Packed
  | BitmapGray4
  | BitmapGray4Packed
  | BitmapGray8
  | BitmapPremulBgra32
deriving DecidableEq, Repr

/-- Models `ttf_parser::RasterGlyphImage` (external crate): placement
(`x`/`y` are `i16`), dimensions and `pixels_per_em` (`u16`), format and the
encoded bytes. -/
structure RasterGlyphImage where
  x : ℤ
  y : ℤ
  width : Nat
  height : Nat
  pixels_per_em : Nat
  format : RasterImageFormat
  data : List Nat
deriving DecidableEq, Repr

/-- Models `ttf_parser::Rect` (`i16` bounds). -/
structure Rect where
  x_min : ℤ
  y_min : ℤ
  x_max : ℤ
  y_max : ℤ
deriving DecidableEq, Repr

def Rect.width (r : Rect) : ℤ := r.x_max - r.x_min

def Rect.height (r : Rect) : ℤ := r.y_max - r.y_min

/-- Models the accessors of a successfully parsed `ttf_parser::Face` that
`Font::new_with_data` (textlayout, font.rs lines 184-216) and `Font::glyph`
(font.rs lines 331-374) consume. `glyph_raster_image` stands for
`Face::glyph_raster_image(id, u16::MAX)` and `outline_glyph` for
`Face::outline_glyph(id, &mut path)` together with the path the outline
builder produces. -/
structure TtfFace where
  units_per_em : Nat
  ascender : ℤ
  descender : ℤ
  height : ℤ
  is_regular : Bool
  is_italic : Bool
  is_bold : Bool
  is_oblique : Bool
  is_variable : Bool
  width_number : Nat
  weight_number : Nat
  glyph_raster_image : Nat → Option RasterGlyphImage
  outline_glyph : Nat → Option (Path × Rect)

/-- Models `swash::Style` (external crate). -/
inductive Style where
  | Normal
  | Italic
  | Oblique (angle : ℚ)
deriving DecidableEq, Repr

/-- Models `swash::Stretch` (external crate): an opaque stretch value with
nine named constants, compared only by equality in font.rs lines 241-256.
The encoding is the stretch ratio in thousandths; only distinctness of the
constants is ever used. -/
structure Stretch where
  val : Nat
deriving DecidableEq, Repr

namespace Stretch

def ULTRA_CONDENSED : Stretch := ⟨500⟩

def EXTRA_CONDENSED : Stretch := ⟨625⟩

def CONDENSED : Stretch := ⟨750⟩

def SEMI_CONDENSED : Stretch := ⟨875⟩

def NORMAL : Stretch := ⟨1000⟩

def SEMI_EXPANDED : Stretch := ⟨1125⟩

def EXPANDED : Stretch := ⟨1250⟩

def EXTRA_EXPANDED : Stretch := ⟨1500⟩

def ULTRA_EXPANDED : Stretch := ⟨2000⟩

end Stretch

/-- Models the data a successful `swash::FontRef::from_index` exposes to
`Font::new_with_data` (swash, font.rs lines 218-277): `metrics(&[])`
(ascent/descent/leading as positive-magnitude `f32`, `units_per_em : u16`),
`attributes()` (weight/stretch/style) and whether `variations()` is
non-empty. -/
structure SwashFace where
  units_per_em : Nat
  ascent : ℚ
  descent : ℚ
  leading : ℚ
  weight : Nat
  stretch : Stretch
  style : Style
  has_variations : Bool

/-- Embeds the `ErrorKind` variant font code can produce. -/
inductive ErrorKind where
  | FontParseError
deriving DecidableEq, Repr

/-- Embeds `Font` (font.rs lines 173-181). The raw byte buffer is consumed
only by the external parser crates, which are modelled by the already-parsed
`TtfFace`/`SwashFace` records, so `data` is not carried; the interior-mutable
`glyphs: RefCell<FnvHashMap<u16, Glyph>>` cache becomes an association list
threaded explicitly through `Font.glyph`. -/
structure Font where
  face_index : Nat
  units_per_em : Nat
  metrics : FontMetrics
  glyphs : List (Nat × Glyph)

/-- Embeds the `width` bucket table of `Font::new_with_data` (swash, font.rs
lines 245-256): a `match` on the nine `swash::Stretch` constants with a
default arm of `5`. -/
def usWidthClass (stretch : Stretch) : Nat :=
  if stretch = Stretch.ULTRA_CONDENSED then 1
  else if stretch = Stretch.EXTRA_CONDENSED then 2
  else if stretch = Stretch.CONDENSED then 3
  else if stretch = Stretch.SEMI_CONDENSED then 4
  else if stretch = Stretch.NORMAL then 5
  else if stretch = Stretch.SEMI_EXPANDED then 6
  else if stretch = Stretch.EXPANDED then 7
  else if stretch = Stretch.EXTRA_EXPANDED then 8
  else if stretch = Stretch.ULTRA_EXPANDED then 9
  else 5

/-- Embeds `Font::new_with_data` under the `textlayout` backend (font.rs
lines 184-216). The argument `parsed` is the outcome of
`ttf_parser::Face::parse(data, face_index)`: `none` models a parse error,
mapped to `FontParseError`. -/
def Font.new_with_data_textlayout (parsed : Option TtfFace) (face_index : Nat) :
    Except ErrorKind Font :=
  match parsed with
  | none => .error ErrorKind.FontParseError
  | some ttf_font =>
    let units_per_em := ttf_font.units_per_em
    let metrics : FontMetrics :=
      { ascender := (ttf_font.ascender : ℚ)
        descender := (ttf_font.descender : ℚ)
        height := (ttf_font.height : ℚ)
        flags := FontFlags.new ttf_font.is_regular ttf_font.is_italic ttf_font.is_bold
          ttf_font.is_oblique ttf_font.is_variable
        width := ttf_font.width_number
        weight := ttf_font.weight_number }
    .ok { face_index, units_per_em, metrics, glyphs := [] }

/-- Embeds `Font::new_with_data` under the `swash` backend (font.rs lines
218-277). The argument `parsed` is the outcome of
`swash::FontRef::from_index(data, face_index)`: `none` models a failed
parse, mapped to `FontParseError`. -/
def Font.new_with_data_swash (parsed : Option SwashFace) (face_index : Nat) :
    Except ErrorKind Font :=
  match parsed with
  | none => .error ErrorKind.FontParseError
  | some font_ref =>
    let units_per_em := font_ref.units_per_em
    let weight := font_ref.weight
    let stretch := font_ref.stretch
    let style := font_ref.style
    let is_bold : Bool := decide (weight ≥ 700)
    let is_italic : Bool := match style with | Style.Italic => true | _ => false
    let is_oblique : Bool := match style with | Style.Oblique _ => true | _ => false
    let is_variable : Bool := font_ref.has_variations
    let is_regular : Bool :=
      decide (weight = 400) && (match style with | Style.Normal => true | _ => false)
        && decide (stretch = Stretch.NORMAL)
    let width : Nat := usWidthClass stretch
    let metrics : FontMetrics :=
      { ascender := font_ref.ascent
        descender := -font_ref.descent
        height := font_ref.ascent + font_ref.descent + font_ref.leading
        flags := FontFlags.new is_regular is_italic is_bold is_oblique is_variable
        weight := weight
        width := width }
    .ok { face_index, units_per_em, metrics, glyphs := [] }

/-- Embeds `Font::scale` (font.rs lines 326-328). -/
def Font.scale (font : Font) (size : ℚ) : ℚ :=
  size / (font.units_per_em : ℚ)

/-- Embeds `Font::metrics(size)` (font.rs lines 318-324); named `metricsAt`
because the raw-metrics field already carries the source name `metrics`. -/
def Font.metricsAt (font : Font) (size : ℚ) : FontMetrics :=
  font.metrics.scale (font.scale size)

/-- Embeds `FnvHashMap::get` on the glyph cache: the first binding for the
key in the threaded association list. -/
def glyphsLookup : List (Nat × Glyph) → Nat → Option Glyph
  | [], _ => none
  | (k, g) :: rest, codepoint => if k = codepoint then some g else glyphsLookup rest codepoint

/-- Embeds `Entry::Vacant(entry).insert(glyph)` on the glyph cache. -/
def glyphsInsert (glyphs : List (Nat × Glyph)) (codepoint : Nat) (g : Glyph) :
    List (Nat × Glyph) :=
  (codepoint, g) :: glyphs

/-- Result of one `Font::glyph` call in the state-passing embedding: the
returned `Option<Ref<Glyph>>`, the cache after the call, and whether the
vacant-entry branch ran (i.e. whether backend extraction was invoked). -/
structure GlyphLookupResult where
  glyph : Option Glyph
  glyphs : List (Nat × Glyph)
  extracted : Bool
deriving DecidableEq, Repr

/-- Embeds the caching skeleton shared verbatim by both `Font::glyph`
variants (font.rs lines 331-374 and 381-425): on a vacant entry run the
backend extractor and insert its result if any; then answer from the final
cache (`Ref::filter_map(self.glyphs.borrow(), ...)`). -/
def glyphLookup (extract : Nat → Option Glyph) (glyphs : List (Nat × Glyph))
    (codepoint : Nat) : GlyphLookupResult :=
  if (glyphsLookup glyphs codepoint).isSome then
    { glyph := glyphsLookup glyphs codepoint, glyphs := glyphs, extracted := false }
  else
    match extract codepoint with
    | some g =>
      let glyphs := glyphsInsert glyphs codepoint g
      { glyph := glyphsLookup glyphs codepoint, glyphs := glyphs, extracted := true }
    | none =>
      { glyph := glyphsLookup glyphs codepoint, glyphs := glyphs, extracted := true }

/-- Embeds the raster branch of `Font::glyph` (textlayout, font.rs lines
342-355): a pathless `Glyph` whose metrics are the image placement scaled by
`units_per_em / pixels_per_em`, or by `1.0` when `pixels_per_em == 0`. -/
def bitmapGlyph (font : Font) (image : RasterGlyphImage) : Glyph :=
  let scale : ℚ :=
    if image.pixels_per_em ≠ 0 then
      (font.units_per_em : ℚ) / (image.pixels_per_em : ℚ)
    else
      1
  { path := none
    metrics :=
      { width := (image.width : ℚ) * scale
        height := (image.height : ℚ) * scale
        bearing_x := (image.x : ℚ) * scale
        bearing_y := ((image.y : ℚ) + (image.height : ℚ)) * scale } }

/-- Embeds the outline branch of `Font::glyph` (textlayout, font.rs lines
357-365): the built path plus bounding-box metrics. -/
def outlineGlyph (pr : Path × Rect) : Glyph :=
  { path := some pr.1
    metrics :=
      { width := (pr.2.width : ℚ)
        height := (pr.2.height : ℚ)
        bearing_x := (pr.2.x_min : ℚ)
        bearing_y := (pr.2.y_max : ℚ) } }

/-- Embeds the extraction step of `Font::glyph` under `textlayout` (font.rs
lines 333-366): prefer a `PNG` raster image (queried at `u16::MAX`
pixels-per-em and filtered on `format == PNG`); otherwise outline the glyph
and take the bounding-box metrics. -/
def extractGlyphTextlayout (font : Font) (face : TtfFace) (codepoint : Nat) :
    Option Glyph :=
  match Option.filter (fun img => decide (img.format = RasterImageFormat.PNG))
      (face.glyph_raster_image codepoint) with
  | some image => some (bitmapGlyph font image)
  | none => (face.outline_glyph codepoint).map outlineGlyph

/-- Embeds `Font::glyph` under `textlayout` (font.rs lines 331-374) in the
state-passing form. -/
def Font.glyph (font : Font) (face : TtfFace) (codepoint : Nat) : GlyphLookupResult :=
  glyphLookup (extractGlyphTextlayout font face) font.glyphs codepoint

/-- Models a `swash::scale::Outline` (external crate): its bounds and the
`zeno` path commands it yields. The command shapes coincide with the five
verbs `Font::glyph` (swash) translates them to. -/
structure SwashOutline where
  x_min : ℚ
  y_min : ℚ
  x_max : ℚ
  y_max : ℚ
  commands : List PathVerb

/-- Embeds the command-translation loop of `Font::glyph` (swash, font.rs
lines 397-405): build a `Path` by appending each converted command. -/
def swashBuildPath (commands : List PathVerb) : Path :=
  commands.foldl
    (fun path cmd =>
      match cmd with
      | PathVerb.moveTo x y => path.move_to x y
      | PathVerb.lineTo x y => path.line_to x y
      | PathVerb.quadTo cx cy x y => path.quad_to cx cy x y
      | PathVerb.bezierTo c1x c1y c2x c2y x y => path.bezier_to c1x c1y c2x c2y x y
      | PathVerb.close => path.closePath)
    Path.new

/-- Embeds the extraction step of `Font::glyph` under `swash` (font.rs lines
384-417): `scale_outline` is the scaler built from the shared scaling
context at size `units_per_em`; a failed `swash_font_ref()` is modelled by
`scale_outline` yielding `none`. -/
def extractGlyphSwash (scale_outline : Nat → Option SwashOutline) (codepoint : Nat) :
    Option Glyph :=
  match scale_outline codepoint with
  | some outline =>
    some
      { path := some (swashBuildPath outline.commands)
        metrics :=
          { width := outline.x_max - outline.x_min
            height := outline.y_max - outline.y_min
            bearing_x := outline.x_min
            bearing_y := outline.y_max } }
  | none => none

/-- Embeds `Font::glyph` under `swash` (font.rs lines 381-425) in the
state-passing form. -/
def Font.glyphSwash (font : Font) (scale_outline : Nat → Option SwashOutline)
    (codepoint : Nat) : GlyphLookupResult :=
  glyphLookup (extractGlyphSwash scale_outline) font.glyphs codepoint

/-- Modelled from the spec: the textlayout parse step is performed by the
external `ttf_parser` crate (not part of the provided sources); per the spec
construction "Fails with `FontParseError` if parsing fails, the backend is
unavailable, or units-per-em resolves to zero", so a face the parser accepts
reports a nonzero units-per-em. -/
def ttfParseRejectsZeroUpem (parsed : Option TtfFace) : Prop :=
  ∀ f, parsed = some f → f.units_per_em ≠ 0

/-- Modelled from the spec: the swash parse step is performed by the
external `swash` crate (not part of the provided sources); per the spec the
same zero units-per-em rejection applies to it. -/
def swashParseRejectsZeroUpem (parsed : Option SwashFace) : Prop :=
  ∀ f, parsed = some f → f.units_per_em ≠ 0

/-- Concrete PNG raster strike fixture (glyph id 7 of `ttfFaceBoth`). -/
def imgPng7 : RasterGlyphImage :=
  { x := 0, y := 0, width := 10, height := 12, pixels_per_em := 20
    format := RasterImageFormat.PNG, data := [1, 2, 3] }

/-- Concrete non-PNG raster strike fixture (glyph id 3 of `ttfFaceBoth`). -/
def imgNonPng3 : RasterGlyphImage :=
  { x := 1, y := 2, width := 8, height := 8, pixels_per_em := 16
    format := RasterImageFormat.BitmapGray8, data := [4] }

/-- Concrete PNG raster strike with `pixels_per_em = 0` (glyph id 11 of
`ttfFaceBoth`). -/
def imgPngZero11 : RasterGlyphImage :=
  { x := 2, y := 3, width := 4, height := 5, pixels_per_em := 0
    format := RasterImageFormat.PNG, data := [] }

/-- Concrete outline fixture shared by glyph ids 7 and 3 of `ttfFaceBoth`. -/
def outline73 : Path × Rect :=
  ([PathVerb.moveTo 0 0, PathVerb.lineTo 100 0, PathVerb.close],
    { x_min := 0, y_min := 0, x_max := 100, y_max := 150 })

/-- Concrete parsed textlayout face used as a fixture: the spec's scenario
font (`units_per_em = 1000`, `ascender = 800`, `descender = -200`) in which
glyph id 7 carries both a PNG raster strike and an outline, glyph id 3 a
non-PNG raster strike plus an outline, glyph id 11 a PNG strike with
`pixels_per_em = 0`, and every other glyph id nothing. -/
def ttfFaceBoth : TtfFace :=
  { units_per_em := 1000
    ascender := 800
    descender := -200
    height := 1000
    is_regular := true
    is_italic := false
    is_bold := false
    is_oblique := false
    is_variable := false
    width_number := 5
    weight_number := 400
    glyph_raster_image := fun codepoint =>
      if codepoint = 7 then some imgPng7
      else if codepoint = 3 then some imgNonPng3
      else if codepoint = 11 then some imgPngZero11
      else none
    outline_glyph := fun codepoint =>
      if codepoint = 7 ∨ codepoint = 3 then some outline73 else none }

/-- Concrete swash face fixture: `units_per_em = 1000`, positive-magnitude
ascent/descent, normal style, stretch and weight. -/
def swashFaceA : SwashFace :=
  { units_per_em := 1000
    ascent := 800
    descent := 200
    leading := 50
    weight := 400
    stretch := Stretch.NORMAL
    style := Style.Normal
    has_variations := false }

/-- Concrete `Font` fixture matching the textlayout construction on
`ttfFaceBoth` with an empty glyph cache. -/
def fontA : Font :=
  { face_index := 0
    units_per_em := 1000
    metrics :=
      { ascender := 800, descender := -200, height := 1000
        flags := FontFlags.new true false false false false
        weight := 400, width := 5 }
    glyphs := [] }

/-- Concrete `Font` fixture matching the swash construction on
`swashFaceA` with an empty glyph cache. -/
def fontSwashA : Font :=
  { face_index := 0
    units_per_em := 1000
    metrics :=
      { ascender := 800, descender := -200, height := 1050
        flags := FontFlags.new true false false false false
        weight := 400, width := 5 }
    glyphs := [] }

/-- Concrete `Glyph` fixture used by cache-behaviour witnesses. -/
def glyphW : Glyph :=
  { path := none, metrics := { width := 1, height := 2, bearing_x := 0, bearing_y := 2 } }

theorem glyphsLookup_insert_self (glyphs : List (Nat × Glyph)) (codepoint : Nat)
    (g : Glyph) : glyphsLookup (glyphsInsert glyphs codepoint g) codepoint = some g := by
  simp [glyphsInsert, glyphsLookup]

theorem roundTiesAway_intCast (z : ℤ) : roundTiesAway (z : ℚ) = z := by
  unfold roundTiesAway
  split_ifs with h
  · rw [Int.floor_eq_iff]
    constructor
    · linarith
    · linarith
  · rw [Int.ceil_eq_iff]
    constructor
    · linarith
    · linarith

theorem new_with_data_swash_swashFaceA :
    Font.new_with_data_swash (some swashFaceA) 0 = .ok fontSwashA := by
  norm_num [Font.new_with_data_swash, swashFaceA, fontSwashA, usWidthClass, FontFlags.new,
    Stretch.ULTRA_CONDENSED, Stretch.EXTRA_CONDENSED, Stretch.CONDENSED,
    Stretch.SEMI_CONDENSED, Stretch.NORMAL, Stretch.SEMI_EXPANDED, Stretch.EXPANDED,
    Stretch.EXTRA_EXPANDED, Stretch.ULTRA_EXPANDED]

/-- C2: whenever the backend parse step rejects a zero units-per-em (as the
external parsers do, modelled by the two `...RejectsZeroUpem` hypotheses),
every `Font` either constructor returns carries `units_per_em > 0`, and the
denominator `Font.scale` divides by is nonzero. -/
theorem new_with_data_units_per_em_pos (pt : Option TtfFace) (ps : Option SwashFace)
    (i j : Nat) (ht : ttfParseRejectsZeroUpem pt) (hs : swashParseRejectsZeroUpem ps) :
    (∀ f, Font.new_with_data_textlayout pt i = .ok f →
      0 < f.units_per_em ∧ ((f.units_per_em : ℚ) ≠ 0)) ∧
    (∀ f, Font.new_with_data_swash ps j = .ok f →
      0 < f.units_per_em ∧ ((f.units_per_em : ℚ) ≠ 0)) := by
  constructor
  · intro f hf
    cases pt with
    | none => simp [Font.new_with_data_textlayout] at hf
    | some face =>
      have h0 : face.units_per_em ≠ 0 := ht face rfl
      simp only [Font.new_with_data_textlayout, Except.ok.injEq] at hf
      subst hf
      exact ⟨Nat.pos_of_ne_zero h0, Nat.cast_ne_zero.mpr h0⟩
  · intro f hf
    cases ps with
    | none => simp [Font.new_with_data_swash] at hf
    | some face =>
      have h0 : face.units_per_em ≠ 0 := hs face rfl
      simp only [Font.new_with_data_swash, Except.ok.injEq] at hf
      subst hf
      exact ⟨Nat.pos_of_ne_zero h0, Nat.cast_ne_zero.mpr h0⟩

/-- Witness for C2 at concrete parse results. -/
theorem new_with_data_units_per_em_pos_witness :
    (∀ f, Font.new_with_data_textlayout (some ttfFaceBoth) 0 = .ok f →
      0 < f.units_per_em ∧ ((f.units_per_em : ℚ) ≠ 0)) ∧
    (∀ f, Font.new_with_data_swash (some swashFaceA) 0 = .ok f →
      0 < f.units_per_em ∧ ((f.units_per_em : ℚ) ≠ 0)) :=
  new_with_data_units_per_em_pos (some ttfFaceBoth) (some swashFaceA) 0 0
    (fun f h => by cases h; decide) (fun f h => by cases h; decide)

/-- C4: `Font::metrics(size)` multiplies exactly the ascender, descender and
height fields of the stored metrics by `size / units_per_em` and passes the
flags, weight and width fields through unchanged. -/
theorem metrics_scales_lengths_only (font : Font) (size : ℚ) :
    (font.metricsAt size).ascender
      = font.metrics.ascender * (size / (font.units_per_em : ℚ)) ∧
    (font.metricsAt size).descender
      = font.metrics.descender * (size / (font.units_per_em : ℚ)) ∧
    (font.metricsAt size).height
      = font.metrics.height * (size / (font.units_per_em : ℚ)) ∧
    (font.metricsAt size).flags = font.metrics.flags ∧
    (font.metricsAt size).weight = font.metrics.weight ∧
    (font.metricsAt size).width = font.metrics.width :=
  ⟨rfl, rfl, rfl, rfl, rfl, rfl⟩

/-- C5 (amended): `FontMetrics::height()` always returns the scaled height
rounded to the nearest integer (ties away from zero, as `f32::round` does),
and that value is nonnegative whenever the requested size and the stored
unscaled height are nonnegative. -/
theorem metrics_height_round_nonneg (font : Font) (size : ℚ) :
    (font.metricsAt size).heightRounded
      = (roundTiesAway (font.metrics.height * (size / (font.units_per_em : ℚ))) : ℚ) ∧
    (0 ≤ size → 0 ≤ font.metrics.height → 0 ≤ (font.metricsAt size).heightRounded) := by
  constructor
  · rfl
  · intro hsize hheight
    have hq : 0 ≤ font.metrics.height * (size / (font.units_per_em : ℚ)) :=
      mul_nonneg hheight (div_nonneg hsize (Nat.cast_nonneg _))
    have hrw : (font.metricsAt size).heightRounded
        = (⌊font.metrics.height * (size / (font.units_per_em : ℚ)) + 1 / 2⌋ : ℚ) := by
      simp [FontMetrics.heightRounded, Font.metricsAt, Font.scale, FontMetrics.scale,
        roundTiesAway, hq]
    rw [hrw]
    have hfl : (0 : ℤ) ≤ ⌊font.metrics.height * (size / (font.units_per_em : ℚ)) + 1 / 2⌋ :=
      Int.floor_nonneg.mpr (by linarith)
    exact_mod_cast hfl

/-- Witness for C5 (amended) at the scenario font and size 16. -/
theorem metrics_height_round_nonneg_witness :
    (fontA.metricsAt 16).heightRounded
      = (roundTiesAway (fontA.metrics.height * ((16 : ℚ) / (fontA.units_per_em : ℚ))) : ℚ) ∧
    0 ≤ (fontA.metricsAt 16).heightRounded :=
  ⟨(metrics_height_round_nonneg fontA 16).1,
    (metrics_height_round_nonneg fontA 16).2 (by norm_num) (by norm_num [fontA])⟩

/-- C5 counterexample: on the constructed scenario font, `metrics(-16)` has
`height() = -16 < 0`, so the claimed unconditional nonnegativity fails for
negative sizes. -/
theorem metrics_height_negative_size_counterexample :
    (Font.new_with_data_textlayout (some ttfFaceBoth) 0).toOption.map
        (fun f => (f.metricsAt (-16)).heightRounded) = some (-16) ∧
    ((-16 : ℚ) < 0) := by
  constructor
  · simp only [Font.new_with_data_textlayout, Except.toOption, Option.map, Option.map_some,
      Option.some.injEq, Font.metricsAt, Font.scale, FontMetrics.scale,
      FontMetrics.heightRounded, ttfFaceBoth]
    have hq : ((1000 : ℤ) : ℚ) * ((-16 : ℚ) / ((1000 : ℕ) : ℚ)) = ((-16 : ℤ) : ℚ) := by
      push_cast
      norm_num
    rw [hq, roundTiesAway_intCast]
    norm_num
  · norm_num

/-- C7: the swash constructor stores `descender` as the negation of the
backend-reported descent and `height` as the sum
`ascent + descent + leading` of the reported positive magnitudes. -/
theorem swash_descender_height_convention (face : SwashFace) (j : Nat) (f : Font)
    (h : Font.new_with_data_swash (some face) j = .ok f) :
    f.metrics.ascender = face.ascent ∧
    f.metrics.descender = -face.descent ∧
    f.metrics.height = face.ascent + face.descent + face.leading := by
  simp only [Font.new_with_data_swash, Except.ok.injEq] at h
  subst h
  exact ⟨rfl, rfl, rfl⟩

/-- Witness for C7 at the concrete swash face. -/
theorem swash_descender_height_convention_witness :
    fontSwashA.metrics.ascender = swashFaceA.ascent ∧
    fontSwashA.metrics.descender = -swashFaceA.descent ∧
    fontSwashA.metrics.height = swashFaceA.ascent + swashFaceA.descent + swashFaceA.leading :=
  swash_descender_height_convention swashFaceA 0 fontSwashA new_with_data_swash_swashFaceA

/-- C8: the swash width class follows the fixed 9-bucket stretch table, any
stretch outside the table maps to 5, the result always lies in `[1, 9]`, and
the constructed font stores exactly that value. -/
theorem swash_width_class_table :
    (usWidthClass Stretch.ULTRA_CONDENSED = 1 ∧ usWidthClass Stretch.EXTRA_CONDENSED = 2 ∧
      usWidthClass Stretch.CONDENSED = 3 ∧ usWidthClass Stretch.SEMI_CONDENSED = 4 ∧
      usWidthClass Stretch.NORMAL = 5 ∧ usWidthClass Stretch.SEMI_EXPANDED = 6 ∧
      usWidthClass Stretch.EXPANDED = 7 ∧ usWidthClass Stretch.EXTRA_EXPANDED = 8 ∧
      usWidthClass Stretch.ULTRA_EXPANDED = 9) ∧
    (∀ s : Stretch, s ≠ Stretch.ULTRA_CONDENSED → s ≠ Stretch.EXTRA_CONDENSED →
      s ≠ Stretch.CONDENSED → s ≠ Stretch.SEMI_CONDENSED → s ≠ Stretch.NORMAL →
      s ≠ Stretch.SEMI_EXPANDED → s ≠ Stretch.EXPANDED → s ≠ Stretch.EXTRA_EXPANDED →
      s ≠ Stretch.ULTRA_EXPANDED → usWidthClass s = 5) ∧
    (∀ s : Stretch, 1 ≤ usWidthClass s ∧ usWidthClass s ≤ 9) ∧
    (∀ (face : SwashFace) (j : Nat) (f : Font),
      Font.new_with_data_swash (some face) j = .ok f →
      f.metrics.width = usWidthClass face.stretch ∧
        1 ≤ f.metrics.width ∧ f.metrics.width ≤ 9) := by
  have hbounds : ∀ s : Stretch, 1 ≤ usWidthClass s ∧ usWidthClass s ≤ 9 := by
    intro s
    unfold usWidthClass
    split_ifs <;> omega
  refine ⟨by decide, ?_, hbounds, ?_⟩
  · intro s h1 h2 h3 h4 h5 h6 h7 h8 h9
    simp [usWidthClass, h1, h2, h3, h4, h5, h6, h7, h8, h9]
  · intro face j f h
    simp only [Font.new_with_data_swash, Except.ok.injEq] at h
    subst h
    exact ⟨rfl, hbounds face.stretch⟩

/-- Witness for C8: an off-table stretch value maps to 5, and the concrete
swash construction stores the table value of its stretch. -/
theorem swash_width_class_table_witness :
    usWidthClass ⟨3⟩ = 5 ∧ fontSwashA.metrics.width = usWidthClass swashFaceA.stretch :=
  ⟨swash_width_class_table.2.1 ⟨3⟩ (by decide) (by decide) (by decide) (by decide)
      (by decide) (by decide) (by decide) (by decide) (by decide),
    (swash_width_class_table.2.2.2 swashFaceA 0 fontSwashA new_with_data_swash_swashFaceA).1⟩

theorem glyphLookup_hit (extract : Nat → Option Glyph) (glyphs : List (Nat × Glyph))
    (codepoint : Nat) (g : Glyph) (hc : glyphsLookup glyphs codepoint = some g) :
    glyphLookup extract glyphs codepoint
      = { glyph := some g, glyphs := glyphs, extracted := false } := by
  unfold glyphLookup
  simp [hc]

theorem glyphLookup_cache_after (extract : Nat → Option Glyph)
    (glyphs : List (Nat × Glyph)) (codepoint : Nat) (g : Glyph)
    (h : (glyphLookup extract glyphs codepoint).glyph = some g) :
    glyphsLookup (glyphLookup extract glyphs codepoint).glyphs codepoint = some g := by
  unfold glyphLookup at h ⊢
  cases hl : glyphsLookup glyphs codepoint with
  | some g0 =>
    simp [hl] at h ⊢
    exact h
  | none =>
    cases he : extract codepoint with
    | some g1 =>
      simp [hl, he, glyphsLookup_insert_self] at h ⊢
      exact h
    | none =>
      simp [hl, he] at h

/-- C3: the glyph cache makes `Font::glyph` idempotent for both backend
instantiations of the shared caching skeleton `glyphLookup`: if a first call
returns a glyph, a second call for the same glyph id returns the identical
glyph (same path and metrics) and its vacant-entry check skips backend
extraction. -/
theorem glyph_cached_idempotent (extract : Nat → Option Glyph)
    (glyphs : List (Nat × Glyph)) (codepoint : Nat) (g : Glyph)
    (h : (glyphLookup extract glyphs codepoint).glyph = some g) :
    (glyphLookup extract (glyphLookup extract glyphs codepoint).glyphs codepoint).glyph
      = some g ∧
    (glyphLookup extract (glyphLookup extract glyphs codepoint).glyphs codepoint).extracted
      = false := by
  have hcache : glyphsLookup (glyphLookup extract glyphs codepoint).glyphs codepoint
      = some g := glyphLookup_cache_after extract glyphs codepoint g h
  rw [glyphLookup_hit extract _ codepoint g hcache]
  exact ⟨rfl, rfl⟩

/-- Witness for C3 with a one-glyph backend and an empty cache. -/
theorem glyph_cached_idempotent_witness :
    (glyphLookup (fun _ => some glyphW)
        (glyphLookup (fun _ => some glyphW) [] 0).glyphs 0).glyph = some glyphW ∧
    (glyphLookup (fun _ => some glyphW)
        (glyphLookup (fun _ => some glyphW) [] 0).glyphs 0).extracted = false :=
  glyph_cached_idempotent (fun _ => some glyphW) [] 0 glyphW (by decide)

/-- C6: when the backend produces no geometry for a vacant glyph id, the
call answers `none`, leaves the cache unchanged (no negative caching), runs
extraction again on a repeated lookup, and leaves every other glyph id's
lookup unaffected. -/
theorem glyph_missing_not_cached (extract : Nat → Option Glyph)
    (glyphs : List (Nat × Glyph)) (codepoint : Nat)
    (hvac : glyphsLookup glyphs codepoint = none) (hext : extract codepoint = none) :
    (glyphLookup extract glyphs codepoint).glyph = none ∧
    (glyphLookup extract glyphs codepoint).glyphs = glyphs ∧
    (glyphLookup extract glyphs codepoint).extracted = true ∧
    (glyphLookup extract (glyphLookup extract glyphs codepoint).glyphs codepoint).extracted
      = true ∧
    ∀ j, glyphLookup extract (glyphLookup extract glyphs codepoint).glyphs j
      = glyphLookup extract glyphs j := by
  unfold glyphLookup
  simp [hvac, hext]

/-- Witness for C6 with an always-failing backend and an empty cache. -/
theorem glyph_missing_not_cached_witness :
    (glyphLookup (fun _ => none) [] 5).glyph = none ∧
    (glyphLookup (fun _ => none) [] 5).glyphs = [] ∧
    (glyphLookup (fun _ => none) [] 5).extracted = true ∧
    (glyphLookup (fun _ => none) (glyphLookup (fun _ => none) [] 5).glyphs 5).extracted
      = true ∧
    ∀ j, glyphLookup (fun _ => none) (glyphLookup (fun _ => none) [] 5).glyphs j
      = glyphLookup (fun _ => none) [] j :=
  glyph_missing_not_cached (fun _ => none) [] 5 (by decide) rfl

/-- C1 (amended): on a cache miss, `Font::glyph` under the textlayout
backend prefers an embedded PNG raster strike over the outline: whenever the
face reports a PNG raster image for the glyph id, the cached and returned
glyph is the pathless raster-metrics glyph, even if an outline also exists;
the outline is extracted only when no PNG raster strike is reported. -/
theorem glyph_raster_strike_preferred (font : Font) (face : TtfFace) (codepoint : Nat)
    (hvac : glyphsLookup font.glyphs codepoint = none) :
    (∀ img, face.glyph_raster_image codepoint = some img →
      img.format = RasterImageFormat.PNG →
      (font.glyph face codepoint).glyph = some (bitmapGlyph font img) ∧
        (bitmapGlyph font img).path = none) ∧
    (Option.filter (fun img => decide (img.format = RasterImageFormat.PNG))
        (face.glyph_raster_image codepoint) = none →
      (font.glyph face codepoint).glyph
        = (face.outline_glyph codepoint).map outlineGlyph) := by
  constructor
  · intro img himg hpng
    have hfilt : Option.filter (fun i => decide (i.format = RasterImageFormat.PNG))
        (face.glyph_raster_image codepoint) = some img := by
      rw [himg]
      simp [Option.filter, hpng]
    have hext : extractGlyphTextlayout font face codepoint = some (bitmapGlyph font img) := by
      unfold extractGlyphTextlayout
      rw [hfilt]
    refine ⟨?_, rfl⟩
    unfold Font.glyph glyphLookup
    simp [hvac, hext, glyphsLookup_insert_self]
  · intro hfilt
    have hext : extractGlyphTextlayout font face codepoint
        = (face.outline_glyph codepoint).map outlineGlyph := by
      unfold extractGlyphTextlayout
      rw [hfilt]
    unfold Font.glyph glyphLookup
    cases ho : face.outline_glyph codepoint with
    | some pr =>
      simp [hvac, hext, ho, glyphsLookup_insert_self]
    | none =>
      simp [hvac, hext, ho]

/-- Witness for C1 (amended) at glyph id 7 of the fixture face, which has a
PNG raster strike. -/
theorem glyph_raster_strike_preferred_witness :
    (∀ img, ttfFaceBoth.glyph_raster_image 7 = some img →
      img.format = RasterImageFormat.PNG →
      (fontA.glyph ttfFaceBoth 7).glyph = some (bitmapGlyph fontA img) ∧
        (bitmapGlyph fontA img).path = none) ∧
    (Option.filter (fun img => decide (img.format = RasterImageFormat.PNG))
        (ttfFaceBoth.glyph_raster_image 7) = none →
      (fontA.glyph ttfFaceBoth 7).glyph
        = (ttfFaceBoth.outline_glyph 7).map outlineGlyph) :=
  glyph_raster_strike_preferred fontA ttfFaceBoth 7 rfl

/-- C1 counterexample: glyph id 7 of the fixture face carries both a PNG
raster strike and an outline, yet the constructed font caches and returns it
as the pathless raster glyph (`path = none`), not with its outline path. -/
theorem glyph_outline_preference_counterexample :
    (ttfFaceBoth.outline_glyph 7).isSome = true ∧
    (Font.new_with_data_textlayout (some ttfFaceBoth) 0).toOption.map
        (fun f => (f.glyph ttfFaceBoth 7).glyph.map Glyph.path) = some (some none) := by
  exact ⟨rfl, rfl⟩

/-- C9: a raster image whose format is not PNG is filtered out, so the glyph
falls through to outline extraction. -/
theorem glyph_non_png_raster_skipped (font : Font) (face : TtfFace) (codepoint : Nat)
    (img : RasterGlyphImage) (himg : face.glyph_raster_image codepoint = some img)
    (hfmt : img.format ≠ RasterImageFormat.PNG) :
    extractGlyphTextlayout font face codepoint
      = (face.outline_glyph codepoint).map outlineGlyph := by
  unfold extractGlyphTextlayout
  rw [himg]
  have hdec : decide (img.format = RasterImageFormat.PNG) = false := decide_eq_false hfmt
  simp [Option.filter, hdec]

/-- Witness for C9 at glyph id 3 of the fixture face, whose raster strike is
a gray bitmap. -/
theorem glyph_non_png_raster_skipped_witness :
    extractGlyphTextlayout fontA ttfFaceBoth 3
      = (ttfFaceBoth.outline_glyph 3).map outlineGlyph :=
  glyph_non_png_raster_skipped fontA ttfFaceBoth 3 imgNonPng3 rfl (by decide)

/-- C10: a PNG raster image reporting `pixels_per_em = 0` is handled with
scale factor `1.0`, so the bitmap glyph's metrics are the raw image
placement values and no division by zero happens. -/
theorem glyph_zero_ppem_scale_one (font : Font) (face : TtfFace) (codepoint : Nat)
    (img : RasterGlyphImage) (himg : face.glyph_raster_image codepoint = some img)
    (hpng : img.format = RasterImageFormat.PNG) (hppem : img.pixels_per_em = 0) :
    extractGlyphTextlayout font face codepoint
      = some { path := none
               metrics :=
                 { width := (img.width : ℚ)
                   height := (img.height : ℚ)
                   bearing_x := (img.x : ℚ)
                   bearing_y := (img.y : ℚ) + (img.height : ℚ) } } := by
  unfold extractGlyphTextlayout bitmapGlyph
  rw [himg]
  simp [Option.filter, hpng, hppem]

/-- Witness for C10 at glyph id 11 of the fixture face, whose PNG strike
reports zero pixels-per-em. -/
theorem glyph_zero_ppem_scale_one_witness :
    extractGlyphTextlayout fontA ttfFaceBoth 11
      = some { path := none
               metrics :=
                 { width := (imgPngZero11.width : ℚ)
                   height := (imgPngZero11.height : ℚ)
                   bearing_x := (imgPngZero11.x : ℚ)
                   bearing_y := (imgPngZero11.y : ℚ) + (imgPngZero11.height : ℚ) } } :=
  glyph_zero_ppem_scale_one fontA ttfFaceBoth 11 imgPngZero11 rfl rfl rfl

end Femtovg
